import Mathlib

/-!
Verification of the `cascade_demo` extension (trip scheduling demo) and the
`flockctrl` mission template helpers of the skybrush-server repository, as a
shallow embedding in Lean.

Python values reaching the handlers are modelled by `JValue`, dictionaries by
association lists, and the mutable extension state (stations, trips, command
queue) by the explicit record `ExtState` threaded through the handlers.
Python floats are modelled as rationals.  Exceptions on lookup paths
(`KeyError`, the `defaultdict(Trip)` factory `TypeError`) are modelled by
`Option`.
-/

namespace CascadeDemo

/-- Model of the Python values that can appear in a message body
(`None`, `bool`, `int`, `float`, `str`, `list`, `dict`). -/
inductive JValue where
  | null : JValue
  | bool (b : Bool) : JValue
  | int (n : Int) : JValue
  | float (q : ℚ) : JValue
  | str (s : String) : JValue
  | list (xs : List JValue) : JValue
  | dict (entries : List (String × JValue)) : JValue

/-- First-match lookup in an association list, modelling Python dict
subscription and `dict.get`. -/
def mapLookup (m : List (String × α)) (k : String) : Option α :=
  match m with
  | [] => none
  | (a, b) :: rest => if a = k then some b else mapLookup rest k

/-- `body.get(k)`: Python `dict.get` returns `None` when the key is absent. -/
def getKey (body : List (String × JValue)) (k : String) : JValue :=
  (mapLookup body k).getD JValue.null

/-- `isinstance(v, str)` refinement: yields the string payload when `v` is a
Python `str`, and `none` otherwise. -/
def asStr : JValue → Option String
  | .str s => some s
  | _ => none

/-- `isinstance(v, list)` refinement: yields the element list when `v` is a
Python `list`, and `none` otherwise. -/
def asList : JValue → Option (List JValue)
  | .list xs => some xs
  | _ => none

/-- Parses the digit part of a Python integer literal: decimal digits with
single underscores allowed between digits (`int("1_000")` semantics).  The
first character consumed by this worker has already been checked to be a
digit; `acc` is its value so far. -/
def parseDigitsCore (acc : Nat) : List Char → Option Nat
  | [] => some acc
  | '_' :: c :: rest =>
      if c.isDigit then parseDigitsCore (acc * 10 + (c.toNat - '0'.toNat)) rest
      else none
  | c :: rest =>
      if c.isDigit then parseDigitsCore (acc * 10 + (c.toNat - '0'.toNat)) rest
      else none

/-- Parses a nonempty underscore-separated digit sequence. -/
def parseDigits : List Char → Option Nat
  | c :: rest =>
      if c.isDigit then parseDigitsCore (c.toNat - '0'.toNat) rest else none
  | [] => none

/-- Python `int(s)` on a string: surrounding whitespace stripped, optional
sign, then decimal digits with optional single underscores between digits;
raises (here: `none`) otherwise. -/
def parsePyInt (s : String) : Option Int :=
  match s.trim.toList with
  | '+' :: rest => (parseDigits rest).map Int.ofNat
  | '-' :: rest => (parseDigits rest).map (fun n => -(n : Int))
  | cs => (parseDigits cs).map Int.ofNat

/-- Python `int(q)` on a float: truncation toward zero. -/
def pyTrunc (q : ℚ) : Int :=
  if 0 ≤ q then ⌊q⌋ else -⌊-q⌋

/-- Models `int(x)` followed by `isinstance(x, int)` as done in
`handle_trip_addition`: `some` exactly when after the `try: int(x)` the value
is an `int` (recall Python `bool` is an `int` subclass, and a failed
conversion leaves the original non-`int` value in place). -/
def pyToInt : JValue → Option Int
  | .int n => some n
  | .bool b => some (if b then 1 else 0)
  | .float q => some (pyTrunc q)
  | .str s => parsePyInt s
  | _ => none

/-- Model of `flockwave.gps.vectors.GPSCoordinate` (external collaborator):
only the fields used here. -/
structure GPSCoordinate where
  lat : ℚ
  lon : ℚ
  agl : ℚ
  deriving Repr, DecidableEq

/-- `Station`: model object representing a single station in the demo. -/
structure Station where
  id : String
  position : GPSCoordinate
  deriving Repr, DecidableEq

/-- `Station.from_json`: the JSON representation is a `(lon, lat)` pair;
`GPSCoordinate(lon=obj[0], lat=obj[1], agl=0)`. -/
def Station.from_json (obj : ℚ × ℚ) (id : String) : Station :=
  ⟨id, ⟨obj.2, obj.1, 0⟩⟩

/-- `TripStatus`: the possible statuses of a trip, exactly the members of the
Python `Enum` in the source. -/
inductive TripStatus where
  | NEW : TripStatus
  | UPLOADING : TripStatus
  | UPLOADED : TripStatus
  | ERROR : TripStatus
  deriving Repr, DecidableEq

/-- The `Enum` member values from the source (`NEW = "new"`, ...). -/
def TripStatus.value : TripStatus → String
  | .NEW => "new"
  | .UPLOADING => "uploading"
  | .UPLOADED => "uploaded"
  | .ERROR => "error"

/-- The `Enum` member names as they appear in the source. -/
def TripStatus.memberName : TripStatus → String
  | .NEW => "NEW"
  | .UPLOADING => "UPLOADING"
  | .UPLOADED => "UPLOADED"
  | .ERROR => "ERROR"

/-- All members of `TripStatus`, in source order. -/
def TripStatus.all : List TripStatus :=
  [TripStatus.NEW, TripStatus.UPLOADING, TripStatus.UPLOADED, TripStatus.ERROR]

/-- The member names of the `TripStatus` enum of the code, in source order. -/
def tripStatusNames : List String :=
  TripStatus.all.map TripStatus.memberName

/-- Modelled from the spec (for refinement comparison only): the status names
the specification text lists for a work item. -/
def specStatusNames : List String :=
  ["NEW", "IN_PROGRESS", "DONE", "ERROR"]

/-- `Trip`: a single scheduled trip of a UAV; `status` defaults to `NEW`
exactly as the dataclass default in the source. -/
structure Trip where
  uav_id : String
  start_time : ℚ
  route : List String
  status : TripStatus := TripStatus.NEW
  deriving Repr, DecidableEq

/-- Replace-or-append update of an association list, modelling Python dict
item assignment `d[k] = v`. -/
def mapInsert (m : List (String × α)) (k : String) (v : α) :
    List (String × α) :=
  if (mapLookup m k).isSome then
    m.map (fun p => if p.1 = k then (k, v) else p)
  else
    m ++ [(k, v)]

/-- Removal from an association list, modelling `d.pop(k, None)`'s effect on
the dict. -/
def mapErase (m : List (String × α)) (k : String) : List (String × α) :=
  m.filter (fun p => decide (p.1 ≠ k))

/-- The mutable state of `ERPSystemConnectionDemoExtension` that the trip
handlers touch: `_stations`, `_trips`, and the contents of the bounded
command queue (`_command_queue_tx` / `_command_queue_rx`), oldest first. -/
structure ExtState where
  stations : List (String × Station)
  trips : List (String × Trip)
  queue : List String
  deriving Repr, DecidableEq

/-- A handler reply: `hub.acknowledge(message)` or
`hub.reject(message, reason)`. -/
inductive Reply where
  | ack : Reply
  | reject (reason : String) : Reply
  deriving Repr, DecidableEq

/-- Fixed-point decimal rendering of a rational with `prec` fractional
digits, modelling the Python format specifier `.{prec}f` (the exact
rounding of binary doubles is immaterial here: every theorem renders both
sides through this same function).  A negative value keeps its minus sign
after rounding, as Python does. -/
def padZeros (prec : Nat) (s : String) : String :=
  String.mk (List.replicate (prec - s.length) '0') ++ s

/-- See `padZeros`; the whole fixed-point rendering. -/
def formatFixed (prec : Nat) (q : ℚ) : String :=
  let n : Nat := (Rat.floor (|q| * (10 : ℚ) ^ prec + 1 / 2)).toNat
  let sign : String := if q < 0 then "-" else ""
  sign ++ toString (n / 10 ^ prec) ++ "." ++ padZeros prec (toString (n % 10 ^ prec))

/-- `WAYPOINT_INIT_STR` of the source, character for character. -/
def WAYPOINT_INIT_STR : String :=
  "# this is a waypoint file generated by flockwave-server\n\n[init]\n#angle=\nground_altitude=0\n#origin=\n\n[waypoints]\nmotoroff=10\n"

/-- `WAYPOINT_STR.format(station=..., lat=..., lon=..., agl=...,
velocity_xy=..., velocity_z=...)`: the source's template with its holes
(`{lat:.8f}`, ...) filled through `formatFixed`. -/
def WAYPOINT_STR (station : String) (lat lon agl velocity_xy velocity_z : ℚ) :
    String :=
  "\n# taking off towards station '" ++ station ++ "'\nmotoron=5\ntakeoff=5 4 1 0\nwaypoint=N"
    ++ formatFixed 8 lat ++ " E" ++ formatFixed 8 lon ++ " " ++ formatFixed 2 agl
    ++ " " ++ formatFixed 2 velocity_xy ++ " " ++ formatFixed 2 velocity_z
    ++ " 5 0\n# landing at station '" ++ station ++ "'\nland=4 1 0\nmotoroff=10\n"

/-- Python `sorted` on strings as a Boolean relation for `mergeSort`. -/
def strLeBool (a b : String) : Bool :=
  decide (a ≤ b)

/-- `sorted(m.keys())`. -/
def sortedKeys (m : List (String × α)) : List String :=
  (m.map Prod.fst).mergeSort strLeBool

/-- `configure_stations`: `stations or {}`, then build the station map over
`sorted(stations.keys())` via `Station.from_json` (the `getD` default is
unreachable: every id produced by `sortedKeys` is a key of the list). -/
def configure_stations (stations : Option (List (String × (ℚ × ℚ)))) :
    List (String × Station) :=
  let s := match stations with | none => [] | some l => l
  let station_ids := sortedKeys s
  station_ids.map (fun id => (id, Station.from_json ((mapLookup s id).getD (0, 0)) id))

/-- `generate_waypoint_file_from_route`: starts from `WAYPOINT_INIT_STR`; for
a truthy `uav_id` appends one formatted `WAYPOINT_STR` block per route
element of the stored trip.  `none` models the exceptions of the source on
this path: the `defaultdict(Trip)` factory raising for an id with no stored
trip, and `self._stations[name]` raising for an unknown station name.
`waypointBlocks` is the source's `for name in self._trips[uav_id].route`
loop, aborting at the first unknown station name. -/
def waypointBlocks (stations : List (String × Station)) (names : List String)
    (agl velocity_xy velocity_z : ℚ) : Option (List String) :=
  match names with
  | [] => some []
  | name :: rest =>
    match mapLookup stations name with
    | none => none
    | some station =>
      match waypointBlocks stations rest agl velocity_xy velocity_z with
      | none => none
      | some parts =>
          some (WAYPOINT_STR name station.position.lat station.position.lon agl
                  velocity_xy velocity_z :: parts)

/-- See `waypointBlocks`; the whole waypoint file generator. -/
def generate_waypoint_file_from_route (st : ExtState) (uav_id : String)
    (velocity_xy velocity_z agl : ℚ) : Option String :=
  if uav_id = "" then some WAYPOINT_INIT_STR
  else
    match mapLookup st.trips uav_id with
    | none => none
    | some trip =>
        (waypointBlocks st.stations trip.route agl velocity_xy velocity_z).map
          (fun parts => WAYPOINT_INIT_STR ++ String.join parts)

/-- `handle_trip_addition`: the five validation checks of the source in
order, first failing check wins; on success stores the (replacing) trip
with the dataclass-default status `NEW`, appends the id to the command
queue and acknowledges.  `now` models `time()`. -/
def handle_trip_addition (now : ℚ) (body : List (String × JValue))
    (st : ExtState) : Reply × ExtState :=
  match asStr (getKey body "uavId") with
  | none => (Reply.reject "Missing UAV ID or it is not a string", st)
  | some uav_id =>
    match pyToInt (getKey body "startTime") with
    | none => (Reply.reject "Missing start time or it is not an integer", st)
    | some start_time_ms =>
      if (start_time_ms : ℚ) / 1000 < now then
        (Reply.reject "Start time is in the past", st)
      else
        match asList (getKey body "route") with
        | none => (Reply.reject "Route is not specified or is empty", st)
        | some route =>
          if route.isEmpty then
            (Reply.reject "Route is not specified or is empty", st)
          else
            match route.mapM asStr with
            | none => (Reply.reject "Station names in route must be strings", st)
            | some routeNames =>
                (Reply.ack,
                 ⟨st.stations,
                  mapInsert st.trips uav_id
                    { uav_id := uav_id, start_time := (start_time_ms : ℚ) / 1000,
                      route := routeNames },
                  st.queue ++ [uav_id]⟩)

/-- `handle_trip_cancellation`: reject when `uavId` is not a string, reject
when `self._trips.pop(uav_id, None)` finds nothing, otherwise remove the
trip and acknowledge. -/
def handle_trip_cancellation (body : List (String × JValue)) (st : ExtState) :
    Reply × ExtState :=
  match asStr (getKey body "uavId") with
  | none => (Reply.reject "Missing UAV ID or it is not a string", st)
  | some uav_id =>
    match mapLookup st.trips uav_id with
    | none => (Reply.reject "UAV has no scheduled trip", st)
    | some _ => (Reply.ack, ⟨st.stations, mapErase st.trips uav_id, st.queue⟩)

/-- `upload_trip_to_uav`: re-reads the currently stored trip; returns with no
upload when there is none or its status is not `NEW`; otherwise performs the
(simulated) upload.  In this sequential model the `await sleep(5)` completes
(trio's `Cancelled` is not an `Exception`, so the `except` arm is dead on
the success path) and the trip ends at status `UPLOADED`; the Boolean
records whether an upload was performed. -/
def upload_trip_to_uav (uav_id : String) (st : ExtState) : ExtState × Bool :=
  match mapLookup st.trips uav_id with
  | none => (st, false)
  | some trip =>
    if trip.status ≠ TripStatus.NEW then (st, false)
    else
      (⟨st.stations,
        mapInsert st.trips uav_id { trip with status := TripStatus.UPLOADED },
        st.queue⟩,
       true)

/-- `manage_trips`: the background consumer draining the queue in FIFO
order, calling `upload_trip_to_uav` on each received id; the returned list
collects the ids for which an upload was actually performed, in order. -/
def manage_trips : List String → ExtState → ExtState × List String
  | [], st => (st, [])
  | uav_id :: rest, st =>
    let step := upload_trip_to_uav uav_id st
    let next := manage_trips rest step.1
    (next.1, (if step.2 then [uav_id] else []) ++ next.2)

end CascadeDemo

namespace MissionTemplates

/-- `gps_coordinate_to_string` of `flockctrl/mission_templates.py`:
`'N' if lat >= 0 else 'S'`, `'E' if lon >= 0 else 'W'`, then
`"{}{:.8f} {}{:.8f}".format(NS, lat, EW, lon)` — the numeric value is
rendered as is, not negated for the southern/western hemisphere. -/
def gps_coordinate_to_string (lat lon : ℚ) : String :=
  let NS := if 0 ≤ lat then "N" else "S"
  let EW := if 0 ≤ lon then "E" else "W"
  NS ++ CascadeDemo.formatFixed 8 lat ++ " " ++ EW ++ CascadeDemo.formatFixed 8 lon

end MissionTemplates

namespace CascadeDemo

/-- Scenario fixture: an `X-TRIP-ADD` body for UAV `U1` with `startTime`
60000 ms and route `["S1", "S2"]`. -/
def demoBodyA : List (String × JValue) :=
  [("uavId", JValue.str "U1"), ("startTime", JValue.int 60000),
   ("route", JValue.list [JValue.str "S1", JValue.str "S2"])]

/-- Scenario fixture: a second `X-TRIP-ADD` body for the same UAV `U1`,
sent before the consumer processed the first. -/
def demoBodyB : List (String × JValue) :=
  [("uavId", JValue.str "U1"), ("startTime", JValue.int 120000),
   ("route", JValue.list [JValue.str "S2"])]

/-- Scenario fixture: an `X-TRIP-CANCEL` body for UAV `U1`. -/
def demoBodyCancel : List (String × JValue) :=
  [("uavId", JValue.str "U1")]

/-- Scenario fixture: the extension state before any message. -/
def demoSt0 : ExtState := ⟨[], [], []⟩

/-- The trip stored when `demoBodyA` is accepted at `now = 0`
(60000 ms / 1000 = 60 s). -/
def demoTripA : Trip :=
  { uav_id := "U1", start_time := ((60000 : Int) : ℚ) / 1000,
    route := ["S1", "S2"] }

/-- The trip stored when `demoBodyB` is accepted at `now = 0`. -/
def demoTripB : Trip :=
  { uav_id := "U1", start_time := ((120000 : Int) : ℚ) / 1000,
    route := ["S2"] }

/-- State after `demoBodyA` is accepted from `demoSt0`. -/
def demoSt1 : ExtState := ⟨[], [("U1", demoTripA)], ["U1"]⟩

/-- State after `demoBodyB` is accepted from `demoSt1`: the stored trip is
replaced, the queue now holds the id twice. -/
def demoSt2 : ExtState := ⟨[], [("U1", demoTripB)], ["U1", "U1"]⟩

end CascadeDemo

namespace CascadeDemo

theorem mapLookup_nil (k : String) : mapLookup ([] : List (String × α)) k = none := rfl

theorem mapLookup_cons_self (a : String) (b : α) (m : List (String × α)) :
    mapLookup ((a, b) :: m) a = some b := by
  show (if a = a then some b else mapLookup m a) = some b
  exact if_pos rfl

theorem mapLookup_cons_ne (a : String) (b : α) (m : List (String × α))
    (k : String) (h : a ≠ k) : mapLookup ((a, b) :: m) k = mapLookup m k := by
  show (if a = k then some b else mapLookup m k) = mapLookup m k
  exact if_neg h

theorem mapLookup_append_single (m : List (String × α)) (k : String) (v : α)
    (h : mapLookup m k = none) : mapLookup (m ++ [(k, v)]) k = some v := by
  induction m with
  | nil => simpa using mapLookup_cons_self k v []
  | cons p m ih =>
    obtain ⟨a, b⟩ := p
    by_cases hak : a = k
    · subst hak
      rw [mapLookup_cons_self] at h
      exact absurd h (by simp)
    · rw [mapLookup_cons_ne a b m k hak] at h
      rw [List.cons_append, mapLookup_cons_ne a b _ k hak]
      exact ih h

theorem mapLookup_map_replace (m : List (String × α)) (k : String) (v : α)
    (h : (mapLookup m k).isSome) :
    mapLookup (m.map (fun p => if p.1 = k then (k, v) else p)) k = some v := by
  induction m with
  | nil => rw [mapLookup_nil] at h; exact absurd h (by simp)
  | cons p m ih =>
    obtain ⟨a, b⟩ := p
    rw [List.map_cons]
    by_cases hak : a = k
    · subst hak
      rw [if_pos (show (a, b).1 = a from rfl), mapLookup_cons_self]
    · rw [mapLookup_cons_ne a b m k hak] at h
      rw [if_neg (show ¬ ((a, b).1 = k) from hak), mapLookup_cons_ne a b _ k hak]
      exact ih h

theorem mapLookup_mapInsert_self (m : List (String × α)) (k : String) (v : α) :
    mapLookup (mapInsert m k v) k = some v := by
  unfold mapInsert
  by_cases h : (mapLookup m k).isSome
  · rw [if_pos h]
    exact mapLookup_map_replace m k v h
  · rw [if_neg h]
    exact mapLookup_append_single m k v (by rwa [Option.not_isSome_iff_eq_none] at h)

theorem mapLookup_mapErase_self (m : List (String × α)) (k : String) :
    mapLookup (mapErase m k) k = none := by
  induction m with
  | nil => rfl
  | cons p m ih =>
    obtain ⟨a, b⟩ := p
    by_cases hak : a = k
    · subst hak
      unfold mapErase at ih ⊢
      have hd : decide (a ≠ a) = false := by simp
      simp only [List.filter, hd]
      exact ih
    · unfold mapErase at ih ⊢
      have hd : decide (a ≠ k) = true := by simp [hak]
      simp only [List.filter, hd]
      rw [mapLookup_cons_ne a b _ k hak]
      exact ih

theorem mapLookup_none_iff_not_mem (m : List (String × α)) (k : String) :
    mapLookup m k = none ↔ k ∉ m.map Prod.fst := by
  induction m with
  | nil => simp [mapLookup_nil]
  | cons p m ih =>
    obtain ⟨a, b⟩ := p
    by_cases hak : a = k
    · subst hak
      rw [mapLookup_cons_self]
      simp
    · rw [mapLookup_cons_ne a b m k hak]
      have hka : k ≠ a := fun e => hak e.symm
      simp [hka, ih]

theorem keys_nodup_mapInsert (m : List (String × α)) (k : String) (v : α)
    (h : (m.map Prod.fst).Nodup) : ((mapInsert m k v).map Prod.fst).Nodup := by
  unfold mapInsert
  by_cases hs : (mapLookup m k).isSome
  · rw [if_pos hs]
    have heq : (m.map (fun p => if p.1 = k then (k, v) else p)).map Prod.fst
        = m.map Prod.fst := by
      rw [List.map_map]
      apply List.map_congr_left
      intro p _
      by_cases hp : p.1 = k
      · simp [hp, Function.comp]
      · simp [hp, Function.comp]
    rw [heq]
    exact h
  · rw [if_neg hs]
    have hk : k ∉ m.map Prod.fst := by
      rw [← mapLookup_none_iff_not_mem]
      rwa [Option.not_isSome_iff_eq_none] at hs
    simp only [List.map_append, List.map_cons, List.map_nil]
    refine List.Nodup.append h (List.nodup_singleton k) ?_
    intro x hx hxk
    rw [List.mem_singleton] at hxk
    subst hxk
    exact hk hx

end CascadeDemo

namespace CascadeDemo

theorem handle_trip_addition_success (now : ℚ) (body : List (String × JValue))
    (st : ExtState) (u : String) (ms : Int) (route : List JValue)
    (routeNames : List String)
    (h1 : asStr (getKey body "uavId") = some u)
    (h2 : pyToInt (getKey body "startTime") = some ms)
    (h3 : ¬ ((ms : ℚ) / 1000 < now))
    (h4 : asList (getKey body "route") = some route)
    (h5 : route.isEmpty = false)
    (h6 : route.mapM asStr = some routeNames) :
    handle_trip_addition now body st =
      (Reply.ack,
       ⟨st.stations,
        mapInsert st.trips u
          { uav_id := u, start_time := (ms : ℚ) / 1000, route := routeNames },
        st.queue ++ [u]⟩) := by
  unfold handle_trip_addition
  simp only [h1, h2, h4, h5, h6, if_neg h3]
  simp

theorem handle_trip_addition_ack_or_id (now : ℚ)
    (body : List (String × JValue)) (st : ExtState) :
    (handle_trip_addition now body st).1 = Reply.ack
      ∨ (handle_trip_addition now body st).2 = st := by
  unfold handle_trip_addition
  split
  · exact Or.inr rfl
  · split
    · exact Or.inr rfl
    · split
      · exact Or.inr rfl
      · split
        · exact Or.inr rfl
        · split
          · exact Or.inr rfl
          · split
            · exact Or.inr rfl
            · exact Or.inl rfl

theorem handle_trip_cancellation_success (body : List (String × JValue))
    (st : ExtState) (u : String) (t : Trip)
    (h1 : asStr (getKey body "uavId") = some u)
    (h2 : mapLookup st.trips u = some t) :
    handle_trip_cancellation body st =
      (Reply.ack, ⟨st.stations, mapErase st.trips u, st.queue⟩) := by
  unfold handle_trip_cancellation
  simp only [h1, h2]

theorem handle_trip_cancellation_ack_or_id (body : List (String × JValue))
    (st : ExtState) :
    (handle_trip_cancellation body st).1 = Reply.ack
      ∨ (handle_trip_cancellation body st).2 = st := by
  unfold handle_trip_cancellation
  split
  · exact Or.inr rfl
  · split
    · exact Or.inr rfl
    · exact Or.inl rfl

end CascadeDemo

namespace CascadeDemo

theorem upload_skips_non_new (st : ExtState) (id : String)
    (h : (mapLookup st.trips id).map Trip.status ≠ some TripStatus.NEW) :
    upload_trip_to_uav id st = (st, false) := by
  unfold upload_trip_to_uav
  cases hl : mapLookup st.trips id with
  | none => simp only [hl]
  | some t =>
    rw [hl] at h
    simp only [hl]
    have ht : t.status ≠ TripStatus.NEW := by simpa using h
    rw [if_pos ht]

theorem upload_uploads_new (st : ExtState) (id : String) (t : Trip)
    (hl : mapLookup st.trips id = some t) (hs : t.status = TripStatus.NEW) :
    upload_trip_to_uav id st =
      (⟨st.stations,
        mapInsert st.trips id { t with status := TripStatus.UPLOADED },
        st.queue⟩,
       true) := by
  unfold upload_trip_to_uav
  simp only [hl]
  rw [if_neg (by simp [hs])]

theorem manage_trips_nil (st : ExtState) : manage_trips [] st = (st, []) := rfl

theorem manage_trips_cons (id : String) (rest : List String) (st : ExtState) :
    manage_trips (id :: rest) st =
      ((manage_trips rest (upload_trip_to_uav id st).1).1,
       (if (upload_trip_to_uav id st).2 then [id] else [])
         ++ (manage_trips rest (upload_trip_to_uav id st).1).2) := rfl

theorem strLeBool_trans (a b c : String) (hab : strLeBool a b = true)
    (hbc : strLeBool b c = true) : strLeBool a c = true := by
  simp only [strLeBool, decide_eq_true_eq] at hab hbc ⊢
  exact le_trans hab hbc

theorem strLeBool_total (a b : String) : (strLeBool a b || strLeBool b a) = true := by
  simp only [strLeBool, Bool.or_eq_true, decide_eq_true_eq]
  exact le_total a b

theorem sortedKeys_eq_of_same_keys (l1 l2 : List (String × α))
    (h1 : (l1.map Prod.fst).Nodup) (h2 : (l2.map Prod.fst).Nodup)
    (h : ∀ k, mapLookup l1 k = mapLookup l2 k) :
    sortedKeys l1 = sortedKeys l2 := by
  have hmem : ∀ k, k ∈ l1.map Prod.fst ↔ k ∈ l2.map Prod.fst := by
    intro k
    rw [← not_iff_not, ← mapLookup_none_iff_not_mem, ← mapLookup_none_iff_not_mem, h k]
  have hperm : (l1.map Prod.fst).Perm (l2.map Prod.fst) :=
    (List.perm_ext_iff_of_nodup h1 h2).mpr hmem
  unfold sortedKeys
  haveI : IsAntisymm String (fun a b => strLeBool a b = true) := by
    constructor
    intro a b hab hba
    simp only [strLeBool, decide_eq_true_eq] at hab hba
    exact le_antisymm hab hba
  refine List.eq_of_perm_of_sorted (r := fun a b => strLeBool a b = true) ?_ ?_ ?_
  · exact ((List.mergeSort_perm _ strLeBool).trans hperm).trans
      (List.mergeSort_perm _ strLeBool).symm
  · exact List.sorted_mergeSort strLeBool_trans strLeBool_total _
  · exact List.sorted_mergeSort strLeBool_trans strLeBool_total _

theorem waypointBlocks_all_found (stations : List (String × Station))
    (names : List String) (agl vxy vz : ℚ) (f : String → Station)
    (h : ∀ name ∈ names, mapLookup stations name = some (f name)) :
    waypointBlocks stations names agl vxy vz =
      some (names.map (fun name =>
        WAYPOINT_STR name (f name).position.lat (f name).position.lon agl vxy vz)) := by
  induction names with
  | nil => rfl
  | cons name rest ih =>
    have hn := h name (List.mem_cons_self name rest)
    have hr : ∀ x ∈ rest, mapLookup stations x = some (f x) :=
      fun x hx => h x (List.mem_cons_of_mem name hx)
    unfold waypointBlocks
    simp only [hn, ih hr, List.map_cons]

end CascadeDemo

namespace CascadeDemo

/-- Evaluation of the first scenario add: accepted, stores `demoTripA`,
enqueues `U1`. -/
theorem demo_add_A : handle_trip_addition 0 demoBodyA demoSt0 = (Reply.ack, demoSt1) := by
  rw [handle_trip_addition_success 0 demoBodyA demoSt0 "U1" 60000
      [JValue.str "S1", JValue.str "S2"] ["S1", "S2"] rfl rfl (by norm_num) rfl rfl rfl]
  rfl

/-- Evaluation of the second scenario add from `demoSt1`: accepted, replaces
the stored trip by `demoTripB`, enqueues `U1` again. -/
theorem demo_add_B : handle_trip_addition 0 demoBodyB demoSt1 = (Reply.ack, demoSt2) := by
  rw [handle_trip_addition_success 0 demoBodyB demoSt1 "U1" 120000
      [JValue.str "S2"] ["S2"] rfl rfl (by norm_num) rfl rfl rfl]
  rfl

end CascadeDemo

namespace CascadeDemo

/-- C4 (amended): when two X-TRIP-ADD messages for the same uavId are both
accepted before the consumer processes either queue entry, the second add
silently supersedes the first; the consumer, reaching the first enqueued
entry, finds the stored (second) trip still in status NEW and uploads it;
reaching the second, duplicate entry it finds the status no longer NEW
(UPLOADED) and skips it, so the trip is never uploaded twice: draining the
queue performs exactly one upload. -/
theorem second_add_supersedes_first (now : ℚ)
    (body1 body2 : List (String × JValue)) (s : ExtState) (u : String)
    (ms1 ms2 : Int) (route1 route2 : List JValue) (names1 names2 : List String)
    (hq : s.queue = [])
    (h11 : asStr (getKey body1 "uavId") = some u)
    (h12 : pyToInt (getKey body1 "startTime") = some ms1)
    (h13 : ¬ ((ms1 : ℚ) / 1000 < now))
    (h14 : asList (getKey body1 "route") = some route1)
    (h15 : route1.isEmpty = false)
    (h16 : route1.mapM asStr = some names1)
    (h21 : asStr (getKey body2 "uavId") = some u)
    (h22 : pyToInt (getKey body2 "startTime") = some ms2)
    (h23 : ¬ ((ms2 : ℚ) / 1000 < now))
    (h24 : asList (getKey body2 "route") = some route2)
    (h25 : route2.isEmpty = false)
    (h26 : route2.mapM asStr = some names2) :
    (handle_trip_addition now body1 s).1 = Reply.ack ∧
    (handle_trip_addition now body2 (handle_trip_addition now body1 s).2).1 = Reply.ack ∧
    (handle_trip_addition now body2 (handle_trip_addition now body1 s).2).2.queue = [u, u] ∧
    (mapLookup (handle_trip_addition now body2 (handle_trip_addition now body1 s).2).2.trips u).map
        Trip.status = some TripStatus.NEW ∧
    (upload_trip_to_uav u (handle_trip_addition now body2 (handle_trip_addition now body1 s).2).2).2 = true ∧
    (upload_trip_to_uav u
        (upload_trip_to_uav u (handle_trip_addition now body2 (handle_trip_addition now body1 s).2).2).1).2 = false ∧
    (manage_trips [u, u]
        (handle_trip_addition now body2 (handle_trip_addition now body1 s).2).2).2 = [u] := by
  have e1 := handle_trip_addition_success now body1 s u ms1 route1 names1 h11 h12 h13 h14 h15 h16
  rw [e1]
  have e2 := handle_trip_addition_success now body2
      ⟨s.stations,
       mapInsert s.trips u
         { uav_id := u, start_time := (ms1 : ℚ) / 1000, route := names1 },
       s.queue ++ [u]⟩
      u ms2 route2 names2 h21 h22 h23 h24 h25 h26
  rw [e2]
  have hl2 : mapLookup
      (mapInsert (mapInsert s.trips u
          { uav_id := u, start_time := (ms1 : ℚ) / 1000, route := names1 }) u
        { uav_id := u, start_time := (ms2 : ℚ) / 1000, route := names2 }) u
      = some { uav_id := u, start_time := (ms2 : ℚ) / 1000, route := names2 } :=
    mapLookup_mapInsert_self _ u _
  have hup1 := upload_uploads_new
      ⟨s.stations,
       mapInsert (mapInsert s.trips u
           { uav_id := u, start_time := (ms1 : ℚ) / 1000, route := names1 }) u
         { uav_id := u, start_time := (ms2 : ℚ) / 1000, route := names2 },
       (s.queue ++ [u]) ++ [u]⟩
      u { uav_id := u, start_time := (ms2 : ℚ) / 1000, route := names2 } hl2 rfl
  have hl3 : mapLookup
      (mapInsert (mapInsert (mapInsert s.trips u
            { uav_id := u, start_time := (ms1 : ℚ) / 1000, route := names1 }) u
          { uav_id := u, start_time := (ms2 : ℚ) / 1000, route := names2 }) u
        { uav_id := u, start_time := (ms2 : ℚ) / 1000, route := names2,
          status := TripStatus.UPLOADED }) u
      = some { uav_id := u, start_time := (ms2 : ℚ) / 1000, route := names2,
               status := TripStatus.UPLOADED } :=
    mapLookup_mapInsert_self _ u _
  have hup2 := upload_skips_non_new
      ⟨s.stations,
       mapInsert (mapInsert (mapInsert s.trips u
            { uav_id := u, start_time := (ms1 : ℚ) / 1000, route := names1 }) u
          { uav_id := u, start_time := (ms2 : ℚ) / 1000, route := names2 }) u
        { uav_id := u, start_time := (ms2 : ℚ) / 1000, route := names2,
          status := TripStatus.UPLOADED },
       (s.queue ++ [u]) ++ [u]⟩
      u (by rw [hl3]; simp)
  refine ⟨rfl, rfl, by simp [hq], by rw [hl2]; rfl, ?_, ?_, ?_⟩
  · rw [hup1]
  · rw [hup1, hup2]
  · have hup1h := hup1
    have hup2h := hup2
    simp only [List.append_assoc, List.singleton_append, List.cons_append,
      List.nil_append] at hup1h hup2h
    simp [manage_trips_cons, manage_trips_nil, hup1h, hup2h]

end CascadeDemo

namespace CascadeDemo

/-- C1: for every X-TRIP-ADD body, `handle_trip_addition` applies exactly
five validation checks in this order — uavId a string, startTime convertible
to an integer, startTime (ms, as seconds) not earlier than the current time,
route a nonempty list, all route elements strings — the first failing check
wins, and each failure rejects with exactly the stated reason string,
leaving the state unchanged. -/
theorem trip_add_validation_order (now : ℚ) (body : List (String × JValue))
    (st : ExtState) :
    (asStr (getKey body "uavId") = none →
      handle_trip_addition now body st
        = (Reply.reject "Missing UAV ID or it is not a string", st))
  ∧ (∀ u, asStr (getKey body "uavId") = some u →
      pyToInt (getKey body "startTime") = none →
      handle_trip_addition now body st
        = (Reply.reject "Missing start time or it is not an integer", st))
  ∧ (∀ u ms, asStr (getKey body "uavId") = some u →
      pyToInt (getKey body "startTime") = some ms →
      (ms : ℚ) / 1000 < now →
      handle_trip_addition now body st
        = (Reply.reject "Start time is in the past", st))
  ∧ (∀ u ms, asStr (getKey body "uavId") = some u →
      pyToInt (getKey body "startTime") = some ms →
      ¬ ((ms : ℚ) / 1000 < now) →
      (asList (getKey body "route") = none ∨ asList (getKey body "route") = some []) →
      handle_trip_addition now body st
        = (Reply.reject "Route is not specified or is empty", st))
  ∧ (∀ u ms route, asStr (getKey body "uavId") = some u →
      pyToInt (getKey body "startTime") = some ms →
      ¬ ((ms : ℚ) / 1000 < now) →
      asList (getKey body "route") = some route →
      route ≠ [] →
      route.mapM asStr = none →
      handle_trip_addition now body st
        = (Reply.reject "Station names in route must be strings", st)) := by
  refine ⟨?_, ?_, ?_, ?_, ?_⟩
  · intro h
    unfold handle_trip_addition
    simp only [h]
  · intro u hu h
    unfold handle_trip_addition
    simp only [hu, h]
  · intro u ms hu hms hlt
    unfold handle_trip_addition
    simp only [hu, hms, if_pos hlt]
  · intro u ms hu hms hlt hroute
    unfold handle_trip_addition
    rcases hroute with h | h
    · simp only [hu, hms, if_neg hlt, h]
    · simp only [hu, hms, if_neg hlt, h, List.isEmpty_nil, if_pos]
  · intro u ms route hu hms hlt hroute hne hmap
    unfold handle_trip_addition
    have he : route.isEmpty = false := by
      simpa [List.isEmpty_iff] using hne
    simp only [hu, hms, if_neg hlt, hroute, he, hmap]
    simp

/-- Witness for `trip_add_validation_order`: one concrete body per failing
check, each at `now = 0`. -/
theorem trip_add_validation_order_witness :
    (handle_trip_addition 0 [] demoSt0
        = (Reply.reject "Missing UAV ID or it is not a string", demoSt0))
  ∧ (handle_trip_addition 0 [("uavId", JValue.str "U1")] demoSt0
        = (Reply.reject "Missing start time or it is not an integer", demoSt0))
  ∧ (handle_trip_addition 0
        [("uavId", JValue.str "U1"), ("startTime", JValue.int (-1000))] demoSt0
        = (Reply.reject "Start time is in the past", demoSt0))
  ∧ (handle_trip_addition 0
        [("uavId", JValue.str "U1"), ("startTime", JValue.int 60000),
         ("route", JValue.list [])] demoSt0
        = (Reply.reject "Route is not specified or is empty", demoSt0))
  ∧ (handle_trip_addition 0
        [("uavId", JValue.str "U1"), ("startTime", JValue.int 60000),
         ("route", JValue.list [JValue.int 3])] demoSt0
        = (Reply.reject "Station names in route must be strings", demoSt0)) :=
  ⟨(trip_add_validation_order 0 [] demoSt0).1 rfl,
   (trip_add_validation_order 0 [("uavId", JValue.str "U1")] demoSt0).2.1 "U1" rfl rfl,
   (trip_add_validation_order 0
      [("uavId", JValue.str "U1"), ("startTime", JValue.int (-1000))] demoSt0).2.2.1
     "U1" (-1000) rfl rfl (by norm_num),
   (trip_add_validation_order 0
      [("uavId", JValue.str "U1"), ("startTime", JValue.int 60000),
       ("route", JValue.list [])] demoSt0).2.2.2.1
     "U1" 60000 rfl rfl (by norm_num) (Or.inr rfl),
   (trip_add_validation_order 0
      [("uavId", JValue.str "U1"), ("startTime", JValue.int 60000),
       ("route", JValue.list [JValue.int 3])] demoSt0).2.2.2.2
     "U1" 60000 [JValue.int 3] rfl rfl (by norm_num) rfl (by simp) rfl⟩

end CascadeDemo

namespace CascadeDemo

/-- C2: for every X-TRIP-ADD body that passes all five validation checks,
`handle_trip_addition` stores (creating or replacing) the trip for that
uavId with status NEW and start time `startTime / 1000`, appends the uavId
to the work queue, and replies acknowledge; looking the uavId up afterwards
yields exactly the new trip. -/
theorem trip_add_success_path (now : ℚ) (body : List (String × JValue))
    (st : ExtState) (u : String) (ms : Int) (route : List JValue)
    (routeNames : List String)
    (h1 : asStr (getKey body "uavId") = some u)
    (h2 : pyToInt (getKey body "startTime") = some ms)
    (h3 : ¬ ((ms : ℚ) / 1000 < now))
    (h4 : asList (getKey body "route") = some route)
    (h5 : route ≠ [])
    (h6 : route.mapM asStr = some routeNames) :
    handle_trip_addition now body st
      = (Reply.ack,
         ⟨st.stations,
          mapInsert st.trips u
            { uav_id := u, start_time := (ms : ℚ) / 1000, route := routeNames,
              status := TripStatus.NEW },
          st.queue ++ [u]⟩)
  ∧ mapLookup (handle_trip_addition now body st).2.trips u
      = some { uav_id := u, start_time := (ms : ℚ) / 1000, route := routeNames,
               status := TripStatus.NEW } := by
  have he : route.isEmpty = false := by simpa [List.isEmpty_iff] using h5
  have heq := handle_trip_addition_success now body st u ms route routeNames
    h1 h2 h3 h4 he h6
  refine ⟨heq, ?_⟩
  rw [heq]
  exact mapLookup_mapInsert_self st.trips u _

/-- Witness for `trip_add_success_path`: the concrete scenario add. -/
theorem trip_add_success_path_witness :
    handle_trip_addition 0 demoBodyA demoSt0
      = (Reply.ack,
         ⟨demoSt0.stations,
          mapInsert demoSt0.trips "U1"
            { uav_id := "U1", start_time := ((60000 : Int) : ℚ) / 1000,
              route := ["S1", "S2"], status := TripStatus.NEW },
          demoSt0.queue ++ ["U1"]⟩)
  ∧ mapLookup (handle_trip_addition 0 demoBodyA demoSt0).2.trips "U1"
      = some { uav_id := "U1", start_time := ((60000 : Int) : ℚ) / 1000,
               route := ["S1", "S2"], status := TripStatus.NEW } :=
  trip_add_success_path 0 demoBodyA demoSt0 "U1" 60000
    [JValue.str "S1", JValue.str "S2"] ["S1", "S2"]
    rfl rfl (by norm_num) rfl (by simp) rfl

/-- C3: `handle_trip_cancellation` rejects with "Missing UAV ID or it is not
a string" when uavId is missing or not a string, rejects with "UAV has no
scheduled trip" when no trip is stored for the uavId, and otherwise removes
the stored trip and acknowledges; after a successful cancel, an immediately
repeated cancel for the same id is rejected with "UAV has no scheduled
trip". -/
theorem trip_cancel_behavior (body : List (String × JValue)) (st : ExtState) :
    (asStr (getKey body "uavId") = none →
      handle_trip_cancellation body st
        = (Reply.reject "Missing UAV ID or it is not a string", st))
  ∧ (∀ u, asStr (getKey body "uavId") = some u →
      mapLookup st.trips u = none →
      handle_trip_cancellation body st
        = (Reply.reject "UAV has no scheduled trip", st))
  ∧ (∀ u t, asStr (getKey body "uavId") = some u →
      mapLookup st.trips u = some t →
      handle_trip_cancellation body st
        = (Reply.ack, ⟨st.stations, mapErase st.trips u, st.queue⟩)
      ∧ handle_trip_cancellation body (handle_trip_cancellation body st).2
        = (Reply.reject "UAV has no scheduled trip",
           (handle_trip_cancellation body st).2)) := by
  refine ⟨?_, ?_, ?_⟩
  · intro h
    unfold handle_trip_cancellation
    simp only [h]
  · intro u hu h
    unfold handle_trip_cancellation
    simp only [hu, h]
  · intro u t hu ht
    have heq := handle_trip_cancellation_success body st u t hu ht
    refine ⟨heq, ?_⟩
    rw [heq]
    unfold handle_trip_cancellation
    simp only [hu, mapLookup_mapErase_self]

/-- Witness for `trip_cancel_behavior`: scenario A's cancel after the add,
and a cancel on the empty state. -/
theorem trip_cancel_behavior_witness :
    (handle_trip_cancellation demoBodyCancel demoSt0
        = (Reply.reject "UAV has no scheduled trip", demoSt0))
  ∧ (handle_trip_cancellation demoBodyCancel demoSt1
        = (Reply.ack, ⟨demoSt1.stations, mapErase demoSt1.trips "U1", demoSt1.queue⟩)
      ∧ handle_trip_cancellation demoBodyCancel
          (handle_trip_cancellation demoBodyCancel demoSt1).2
        = (Reply.reject "UAV has no scheduled trip",
           (handle_trip_cancellation demoBodyCancel demoSt1).2))
  ∧ (handle_trip_cancellation [] demoSt0
        = (Reply.reject "Missing UAV ID or it is not a string", demoSt0)) :=
  ⟨(trip_cancel_behavior demoBodyCancel demoSt0).2.1 "U1" rfl rfl,
   (trip_cancel_behavior demoBodyCancel demoSt1).2.2 "U1" demoTripA rfl rfl,
   (trip_cancel_behavior [] demoSt0).1 rfl⟩

end CascadeDemo

namespace CascadeDemo

theorem handle_trip_addition_trips_shape (now : ℚ)
    (body : List (String × JValue)) (st : ExtState) :
    (handle_trip_addition now body st).2.trips = st.trips
      ∨ ∃ u t, (handle_trip_addition now body st).2.trips
          = mapInsert st.trips u t := by
  unfold handle_trip_addition
  split
  · exact Or.inl rfl
  · split
    · exact Or.inl rfl
    · split
      · exact Or.inl rfl
      · split
        · exact Or.inl rfl
        · split
          · exact Or.inl rfl
          · split
            · exact Or.inl rfl
            · exact Or.inr ⟨_, _, rfl⟩

/-- C5: the trip map holds at most one live work item per entity id:
`handle_trip_addition` preserves key uniqueness of the trip map; an accepted
add for an id that already has a trip overwrites it (the lookup afterwards
yields the new trip); and the background consumer always re-reads the
currently stored trip before acting — whenever the stored trip for an id is
missing or no longer NEW (superseded), `upload_trip_to_uav` changes nothing
and uploads nothing. -/
theorem single_live_trip_invariant (now : ℚ) (body : List (String × JValue))
    (st : ExtState) :
    ((st.trips.map Prod.fst).Nodup →
      (((handle_trip_addition now body st).2.trips).map Prod.fst).Nodup)
  ∧ (∀ u ms route routeNames old,
      asStr (getKey body "uavId") = some u →
      pyToInt (getKey body "startTime") = some ms →
      ¬ ((ms : ℚ) / 1000 < now) →
      asList (getKey body "route") = some route →
      route ≠ [] →
      route.mapM asStr = some routeNames →
      mapLookup st.trips u = some old →
      mapLookup (handle_trip_addition now body st).2.trips u
        = some { uav_id := u, start_time := (ms : ℚ) / 1000,
                 route := routeNames, status := TripStatus.NEW })
  ∧ (∀ id, (mapLookup st.trips id).map Trip.status ≠ some TripStatus.NEW →
      upload_trip_to_uav id st = (st, false)) := by
  refine ⟨?_, ?_, ?_⟩
  · intro hnodup
    rcases handle_trip_addition_trips_shape now body st with hid | ⟨u, t, hins⟩
    · rw [hid]
      exact hnodup
    · rw [hins]
      exact keys_nodup_mapInsert st.trips u t hnodup
  · intro u ms route routeNames old hu hms hlt hroute hne hmap hold
    have he : route.isEmpty = false := by simpa [List.isEmpty_iff] using hne
    rw [handle_trip_addition_success now body st u ms route routeNames
      hu hms hlt hroute he hmap]
    exact mapLookup_mapInsert_self st.trips u _
  · intro id h
    exact upload_skips_non_new st id h

/-- Witness for `single_live_trip_invariant`: the scenario's second add
overwrites the first trip, and the consumer skips an UPLOADED trip. -/
theorem single_live_trip_invariant_witness :
    ((demoSt1.trips.map Prod.fst).Nodup →
      (((handle_trip_addition 0 demoBodyB demoSt1).2.trips).map Prod.fst).Nodup)
  ∧ mapLookup (handle_trip_addition 0 demoBodyB demoSt1).2.trips "U1"
      = some { uav_id := "U1", start_time := ((120000 : Int) : ℚ) / 1000,
               route := ["S2"], status := TripStatus.NEW }
  ∧ upload_trip_to_uav "U1" ⟨[], [("U1", { demoTripB with status := TripStatus.UPLOADED })], []⟩
      = (⟨[], [("U1", { demoTripB with status := TripStatus.UPLOADED })], []⟩, false) :=
  ⟨(single_live_trip_invariant 0 demoBodyB demoSt1).1,
   (single_live_trip_invariant 0 demoBodyB demoSt1).2.1 "U1" 120000
     [JValue.str "S2"] ["S2"] demoTripA rfl rfl (by norm_num) rfl (by simp) rfl rfl,
   (single_live_trip_invariant 0 []
       ⟨[], [("U1", { demoTripB with status := TripStatus.UPLOADED })], []⟩).2.2
     "U1" (by simp [mapLookup_cons_self, demoTripB])⟩

/-- C6: whenever `handle_trip_addition` or `handle_trip_cancellation`
replies reject, the extension state (trip map, work queue, stations) is left
exactly as it was; in particular nothing is enqueued.  Both handlers are
total functions of the model, so no exception is raised on these paths. -/
theorem reject_leaves_state_unchanged (now : ℚ)
    (body : List (String × JValue)) (st : ExtState) :
    (∀ r, (handle_trip_addition now body st).1 = Reply.reject r →
      (handle_trip_addition now body st).2 = st)
  ∧ (∀ r, (handle_trip_cancellation body st).1 = Reply.reject r →
      (handle_trip_cancellation body st).2 = st) := by
  constructor
  · intro r hr
    rcases handle_trip_addition_ack_or_id now body st with hack | hid
    · rw [hack] at hr
      exact absurd hr (by simp)
    · exact hid
  · intro r hr
    rcases handle_trip_cancellation_ack_or_id body st with hack | hid
    · rw [hack] at hr
      exact absurd hr (by simp)
    · exact hid

/-- Witness for `reject_leaves_state_unchanged`: a rejected add and a
rejected cancel on the scenario state. -/
theorem reject_leaves_state_unchanged_witness :
    (handle_trip_addition 0 [] demoSt1).2 = demoSt1
  ∧ (handle_trip_cancellation [] demoSt1).2 = demoSt1 :=
  ⟨(reject_leaves_state_unchanged 0 [] demoSt1).1
     "Missing UAV ID or it is not a string" rfl,
   (reject_leaves_state_unchanged 0 [] demoSt1).2
     "Missing UAV ID or it is not a string" rfl⟩

end CascadeDemo

namespace CascadeDemo

/-- C4 counterexample: in the exact scenario of the claim — two X-TRIP-ADD
messages for the same uavId, both accepted before the consumer processes
either queue entry — the stored trip's status at the moment the consumer
reaches the first (stale) enqueued entry is still NEW, and the consumer
uploads at that entry rather than skipping it: the claim's "observes that
the stored trip's status is no longer NEW and skips it without uploading"
is false for the first entry (it holds for the second, duplicate entry). -/
theorem trip_add_stale_entry_counterexample :
    handle_trip_addition 0 demoBodyA demoSt0 = (Reply.ack, demoSt1)
  ∧ handle_trip_addition 0 demoBodyB demoSt1 = (Reply.ack, demoSt2)
  ∧ demoSt2.queue = ["U1", "U1"]
  ∧ (mapLookup demoSt2.trips "U1").map Trip.status = some TripStatus.NEW
  ∧ (upload_trip_to_uav "U1" demoSt2).2 = true :=
  ⟨demo_add_A, demo_add_B, rfl, rfl, rfl⟩

/-- Witness for `second_add_supersedes_first` at the concrete scenario. -/
theorem second_add_supersedes_first_witness :
    (handle_trip_addition 0 demoBodyA demoSt0).1 = Reply.ack
  ∧ (handle_trip_addition 0 demoBodyB
       (handle_trip_addition 0 demoBodyA demoSt0).2).1 = Reply.ack
  ∧ (handle_trip_addition 0 demoBodyB
       (handle_trip_addition 0 demoBodyA demoSt0).2).2.queue = ["U1", "U1"]
  ∧ (mapLookup (handle_trip_addition 0 demoBodyB
       (handle_trip_addition 0 demoBodyA demoSt0).2).2.trips "U1").map
        Trip.status = some TripStatus.NEW
  ∧ (upload_trip_to_uav "U1" (handle_trip_addition 0 demoBodyB
       (handle_trip_addition 0 demoBodyA demoSt0).2).2).2 = true
  ∧ (upload_trip_to_uav "U1"
       (upload_trip_to_uav "U1" (handle_trip_addition 0 demoBodyB
         (handle_trip_addition 0 demoBodyA demoSt0).2).2).1).2 = false
  ∧ (manage_trips ["U1", "U1"]
       (handle_trip_addition 0 demoBodyB
         (handle_trip_addition 0 demoBodyA demoSt0).2).2).2 = ["U1"] :=
  second_add_supersedes_first 0 demoBodyA demoBodyB demoSt0 "U1" 60000 120000
    [JValue.str "S1", JValue.str "S2"] [JValue.str "S2"] ["S1", "S2"] ["S2"]
    rfl rfl rfl (by norm_num) rfl rfl rfl rfl rfl (by norm_num) rfl rfl rfl

/-- C7 counterexample: the status enum of the code does not consist of the
values NEW, IN_PROGRESS, DONE, ERROR — neither IN_PROGRESS nor DONE is a
member name of `TripStatus`. -/
theorem trip_status_names_counterexample :
    tripStatusNames ≠ specStatusNames
  ∧ "IN_PROGRESS" ∉ tripStatusNames
  ∧ "DONE" ∉ tripStatusNames := by
  refine ⟨?_, ?_, ?_⟩ <;> decide

/-- C7 (amended): the status of a trip ranges over exactly the four values
NEW, UPLOADING, UPLOADED, ERROR (member values "new", "uploading",
"uploaded", "error"), and a newly created trip — one built without an
explicit status, as `handle_trip_addition` does — has status NEW. -/
theorem trip_status_enum_values :
    (∀ s : TripStatus, s ∈ TripStatus.all)
  ∧ tripStatusNames = ["NEW", "UPLOADING", "UPLOADED", "ERROR"]
  ∧ tripStatusNames.Nodup
  ∧ (TripStatus.all.map TripStatus.value)
      = ["new", "uploading", "uploaded", "error"]
  ∧ (∀ u t r, ({ uav_id := u, start_time := t, route := r } : Trip).status
      = TripStatus.NEW) := by
  refine ⟨?_, by decide, by decide, by decide, ?_⟩
  · intro s
    cases s <;> decide
  · intro u t r
    rfl

end CascadeDemo

namespace CascadeDemo

/-- C8: for a uav id with a stored trip all of whose route stations are
configured, `generate_waypoint_file_from_route` returns the fixed init
header `WAYPOINT_INIT_STR` followed by one `WAYPOINT_STR` block per route
element in route order, each formatted with that station's latitude and
longitude; for the falsy uav id `""` it returns exactly the init header. -/
theorem waypoint_file_generation (st : ExtState) (uav_id : String)
    (vxy vz agl : ℚ) (trip : Trip) (f : String → Station) :
    (uav_id ≠ "" →
      mapLookup st.trips uav_id = some trip →
      (∀ name ∈ trip.route, mapLookup st.stations name = some (f name)) →
      generate_waypoint_file_from_route st uav_id vxy vz agl
        = some (WAYPOINT_INIT_STR ++ String.join (trip.route.map (fun name =>
            WAYPOINT_STR name (f name).position.lat (f name).position.lon
              agl vxy vz))))
  ∧ generate_waypoint_file_from_route st "" vxy vz agl
      = some WAYPOINT_INIT_STR := by
  constructor
  · intro hne htrip hstations
    unfold generate_waypoint_file_from_route
    rw [if_neg hne]
    simp only [htrip, waypointBlocks_all_found st.stations trip.route agl vxy vz f hstations]
    rfl
  · rfl

/-- Witness for `waypoint_file_generation`: one configured station `S1` and
a stored one-leg trip for `U9`. -/
theorem waypoint_file_generation_witness :
    generate_waypoint_file_from_route
        ⟨[("S1", ⟨"S1", ⟨47, 19, 0⟩⟩)],
         [("U9", { uav_id := "U9", start_time := 0, route := ["S1"] })], []⟩
        "U9" 4 1 5
      = some (WAYPOINT_INIT_STR ++ String.join
          [WAYPOINT_STR "S1" (47 : ℚ) (19 : ℚ) 5 4 1])
  ∧ generate_waypoint_file_from_route
        ⟨[("S1", ⟨"S1", ⟨47, 19, 0⟩⟩)],
         [("U9", { uav_id := "U9", start_time := 0, route := ["S1"] })], []⟩
        "" 4 1 5
      = some WAYPOINT_INIT_STR := by
  have h := waypoint_file_generation
    ⟨[("S1", ⟨"S1", ⟨47, 19, 0⟩⟩)],
     [("U9", { uav_id := "U9", start_time := 0, route := ["S1"] })], []⟩
    "U9" 4 1 5 { uav_id := "U9", start_time := 0, route := ["S1"] }
    (fun _ => ⟨"S1", ⟨47, 19, 0⟩⟩)
  refine ⟨?_, h.2⟩
  have h1 := h.1 (by simp) rfl (by
    intro name hname
    have : name = "S1" := by simpa using hname
    subst this
    rfl)
  simpa using h1

/-- C9: `configure_stations` accepts a missing or empty "stations"
configuration without error, yielding an empty station map; and any two
station configurations that are equal as key-to-value maps produce exactly
the same station map, because station ids are processed in sorted order. -/
theorem configure_stations_behavior :
    (configure_stations none = [] ∧ configure_stations (some []) = [])
  ∧ (∀ l1 l2 : List (String × (ℚ × ℚ)),
      (l1.map Prod.fst).Nodup → (l2.map Prod.fst).Nodup →
      (∀ k, mapLookup l1 k = mapLookup l2 k) →
      configure_stations (some l1) = configure_stations (some l2)) := by
  refine ⟨⟨?_, ?_⟩, ?_⟩
  · simp [configure_stations, sortedKeys, List.mergeSort_nil]
  · simp [configure_stations, sortedKeys, List.mergeSort_nil]
  · intro l1 l2 h1 h2 h
    show (sortedKeys l1).map
          (fun id => (id, Station.from_json ((mapLookup l1 id).getD (0, 0)) id))
        = (sortedKeys l2).map
          (fun id => (id, Station.from_json ((mapLookup l2 id).getD (0, 0)) id))
    rw [sortedKeys_eq_of_same_keys l1 l2 h1 h2 h]
    apply List.map_congr_left
    intro id _
    rw [h id]

/-- Witness for `configure_stations_behavior`: two insertion orders of the
same two-station configuration. -/
theorem configure_stations_behavior_witness :
    configure_stations (some [("b", ((1 : ℚ), (2 : ℚ))), ("a", (3, 4))])
      = configure_stations (some [("a", ((3 : ℚ), (4 : ℚ))), ("b", (1, 2))])
  ∧ configure_stations (none : Option (List (String × (ℚ × ℚ)))) = [] :=
  ⟨(configure_stations_behavior).2
     [("b", (1, 2)), ("a", (3, 4))] [("a", (3, 4)), ("b", (1, 2))]
     (by decide) (by decide)
     (by
       intro k
       by_cases ha : "a" = k
       · subst ha
         rfl
       · by_cases hb : "b" = k
         · subst hb
           rfl
         · rw [mapLookup_cons_ne _ _ _ _ hb, mapLookup_cons_ne _ _ _ _ ha,
             mapLookup_cons_ne _ _ _ _ ha, mapLookup_cons_ne _ _ _ _ hb]),
   (configure_stations_behavior).1.1⟩

end CascadeDemo

namespace MissionTemplates

/-- C10: `gps_coordinate_to_string` returns the hemisphere letter N when
`lat ≥ 0` and S otherwise, immediately followed by lat to 8 decimal places,
a space, then E when `lon ≥ 0` and W otherwise, followed by lon to 8
decimal places; the numeric value is not negated for the S/W hemispheres,
so a negative coordinate prints the hemisphere letter and then a minus
sign. -/
theorem gps_coordinate_to_string_format (lat lon : ℚ) :
    gps_coordinate_to_string lat lon
      = (if 0 ≤ lat then "N" else "S") ++ CascadeDemo.formatFixed 8 lat
          ++ " " ++ (if 0 ≤ lon then "E" else "W")
          ++ CascadeDemo.formatFixed 8 lon
  ∧ (lat < 0 → ∃ rest, CascadeDemo.formatFixed 8 lat = "-" ++ rest)
  ∧ (0 ≤ lat → ∃ rest, CascadeDemo.formatFixed 8 lat = "" ++ rest) := by
  refine ⟨rfl, ?_, ?_⟩
  · intro hneg
    unfold CascadeDemo.formatFixed
    rw [if_pos hneg]
    exact ⟨_, rfl⟩
  · intro hpos
    unfold CascadeDemo.formatFixed
    rw [if_neg (not_lt.mpr hpos)]
    exact ⟨_, rfl⟩

/-- Witness for `gps_coordinate_to_string_format` at a negative latitude and
positive longitude. -/
theorem gps_coordinate_to_string_format_witness :
    gps_coordinate_to_string (-1/2 : ℚ) (19 : ℚ)
      = (if 0 ≤ (-1/2 : ℚ) then "N" else "S")
          ++ CascadeDemo.formatFixed 8 (-1/2 : ℚ) ++ " "
          ++ (if 0 ≤ (19 : ℚ) then "E" else "W")
          ++ CascadeDemo.formatFixed 8 (19 : ℚ)
  ∧ (∃ rest, CascadeDemo.formatFixed 8 (-1/2 : ℚ) = "-" ++ rest) :=
  ⟨(gps_coordinate_to_string_format (-1/2) 19).1,
   (gps_coordinate_to_string_format (-1/2) 19).2.1 (by norm_num)⟩

end MissionTemplates
